import Mathlib

/-!
Verification of the product-creation webhook pipeline.

The repository holds two near-duplicate Flask apps:
* `src/webhook.py` — the legacy variant: no signature verification, a failed
  catalog lookup returns `None` (falling through to "create"), and dispatch
  errors are only printed (the handler still answers 200).
* `src/api/webhook.py` — the api variant: HMAC-SHA256 signature verification,
  exceptions on fetch/dispatch failure that the handler maps to HTTP 500.

This file embeds both variants shallowly: bytes are `List Nat` (each < 256),
machine words are `Nat` reduced `% 2^32`, network effects are an oracle
environment (`Env`) recording the target system's responses, and each
pipeline run returns the list of outbound calls it issued together with a
normal/raised-exception result.
-/

/-! ## SHA-256, HMAC-SHA256, base64, UTF-8 (the cryptographic collaborators
`hashlib.sha256`, `hmac`, `base64.b64encode`, `str.encode` used by
`src/api/webhook.py`) -/

def M32 : Nat := 4294967296

def rotr (n x : Nat) : Nat := ((x >>> n) ||| (x <<< (32 - n))) % M32

def bigS0 (x : Nat) : Nat := (rotr 2 x) ^^^ (rotr 13 x) ^^^ (rotr 22 x)

def bigS1 (x : Nat) : Nat := (rotr 6 x) ^^^ (rotr 11 x) ^^^ (rotr 25 x)

def smallS0 (x : Nat) : Nat := (rotr 7 x) ^^^ (rotr 18 x) ^^^ (x >>> 3)

def smallS1 (x : Nat) : Nat := (rotr 17 x) ^^^ (rotr 19 x) ^^^ (x >>> 10)

def sha256K : List Nat :=
  [1116352408, 1899447441, 3049323471, 3921009573, 961987163, 1508970993,
   2453635748, 2870763221, 3624381080, 310598401, 607225278, 1426881987,
   1925078388, 2162078206, 2614888103, 3248222580, 3835390401, 4022224774,
   264347078, 604807628, 770255983, 1249150122, 1555081692, 1996064986,
   2554220882, 2821834349, 2952996808, 3210313671, 3336571891, 3584528711,
   113926993, 338241895, 666307205, 773529912, 1294757372, 1396182291,
   1695183700, 1986661051, 2177026350, 2456956037, 2730485921, 2820302411,
   3259730800, 3345764771, 3516065817, 3600352804, 4094571909, 275423344,
   430227734, 506948616, 659060556, 883997877, 958139571, 1322822218,
   1537002063, 1747873779, 1955562222, 2024104815, 2227730452, 2361852424,
   2428436474, 2756734187, 3204031479, 3329325298]

def sha256H0 : List Nat :=
  [1779033703, 3144134277, 1013904242, 2773480762,
   1359893119, 2600822924, 528734635, 1541459225]

def toBytesBE : Nat → Nat → List Nat
  | 0, _ => []
  | k + 1, n => toBytesBE k (n / 256) ++ [n % 256]

def sha256pad (msg : List Nat) : List Nat :=
  let len := msg.length
  let padZeros := (55 + 64 - len % 64) % 64
  msg ++ [0x80] ++ List.replicate padZeros 0 ++ toBytesBE 8 (8 * len)

def bytesToWords : List Nat → List Nat
  | a :: b :: c :: d :: rest => (a * 16777216 + b * 65536 + c * 256 + d) :: bytesToWords rest
  | _ => []

def scheduleStep (w : List Nat) : List Nat :=
  let i := w.length
  let nw := (w.getD (i - 16) 0 + smallS0 (w.getD (i - 15) 0) + w.getD (i - 7) 0 +
             smallS1 (w.getD (i - 2) 0)) % M32
  w ++ [nw]

def buildW : List Nat → Nat → List Nat
  | w, 0 => w
  | w, k + 1 => buildW (scheduleStep w) k

def sha256round (st : List Nat) (kw : Nat) : List Nat :=
  match st with
  | [a, b, c, d, e, f, g, h] =>
    let s1 := bigS1 e
    let ch := (e &&& f) ^^^ ((M32 - 1 - e) &&& g)
    let t1 := (h + s1 + ch + kw) % M32
    let s0 := bigS0 a
    let maj := (a &&& b) ^^^ (a &&& c) ^^^ (b &&& c)
    let t2 := (s0 + maj) % M32
    [(t1 + t2) % M32, a, b, c, (d + t1) % M32, e, f, g]
  | other => other

def compress (h : List Nat) (block : List Nat) : List Nat :=
  let w := buildW (bytesToWords block) 48
  let st := (List.range 64).foldl
    (fun st j => sha256round st ((sha256K.getD j 0 + w.getD j 0) % M32)) h
  List.zipWith (fun x y => (x + y) % M32) h st

def sha256core : Nat → List Nat → List Nat → List Nat
  | 0, h, _ => h
  | n + 1, h, bytes => sha256core n (compress h (bytes.take 64)) (bytes.drop 64)

def joinAll {α : Type} : List (List α) → List α
  | [] => []
  | l :: ls => l ++ joinAll ls

def sha256 (msg : List Nat) : List Nat :=
  let padded := sha256pad msg
  joinAll ((sha256core (padded.length / 64) sha256H0 padded).map (toBytesBE 4))

def hmacSha256 (key msg : List Nat) : List Nat :=
  let k0 := if key.length > 64 then sha256 key else key
  let kPad := k0 ++ List.replicate (64 - k0.length) 0
  let ipad := kPad.map (fun b => b ^^^ 0x36)
  let opad := kPad.map (fun b => b ^^^ 0x5c)
  sha256 (opad ++ sha256 (ipad ++ msg))

def b64Chars : List Char :=
  "ABCDEFGHIJKLMNOPQRSTUVWXYZabcdefghijklmnopqrstuvwxyz0123456789+/".data

def b64Char (n : Nat) : Char := b64Chars.getD n 'A'

def b64encodeAux : List Nat → List Char
  | a :: b :: c :: rest =>
    b64Char (a / 4) :: b64Char ((a % 4) * 16 + b / 16) ::
      b64Char ((b % 16) * 4 + c / 64) :: b64Char (c % 64) :: b64encodeAux rest
  | [a, b] => [b64Char (a / 4), b64Char ((a % 4) * 16 + b / 16), b64Char ((b % 16) * 4), '=']
  | [a] => [b64Char (a / 4), b64Char ((a % 4) * 16), '=', '=']
  | [] => []

def base64encode (bs : List Nat) : String := String.mk (b64encodeAux bs)

def utf8EncodeChar (c : Char) : List Nat :=
  let n := c.toNat
  if n < 0x80 then [n]
  else if n < 0x800 then [0xC0 + n / 64, 0x80 + n % 64]
  else if n < 0x10000 then [0xE0 + n / 4096, 0x80 + (n / 64) % 64, 0x80 + n % 64]
  else [0xF0 + n / 262144, 0x80 + (n / 4096) % 64, 0x80 + (n / 64) % 64, 0x80 + n % 64]

def utf8Encode (s : String) : List Nat := joinAll (s.data.map utf8EncodeChar)

/-- Embedding of `hmac.compare_digest` on two strings: semantically plain
equality (the constant-time execution profile is a timing property with no
counterpart in a functional embedding). -/
def compare_digest (a b : String) : Bool := a == b

/-- Embedding of `verify_webhook` from `src/api/webhook.py`: base64-encode the
HMAC-SHA256 of the raw body keyed by the UTF-8 bytes of the secret, and
compare with the supplied header value. -/
def verify_webhook (secret : String) (data : List Nat) (hmac_header : String) : Bool :=
  compare_digest (base64encode (hmacSha256 (utf8Encode secret) data)) hmac_header

/-- Modelled from the spec: the source platform's signature computation is not
part of src/ (only the verifier is); per the spec it is "the base64-encoded
HMAC-SHA256 digest of that body under that secret". -/
def computeSignature (secret : String) (body : List Nat) : String :=
  base64encode (hmacSha256 (utf8Encode secret) body)

/-! ## Data model (JSON payloads restricted to the fields the code reads) -/

/-- One element of a product's `variants` array; `sku` is `none` when the
variant object has no `"sku"` key (`variant.get("sku")` yields `None`). -/
structure Variant where
  sku : Option String
deriving DecidableEq, Repr

/-- The inbound product payload: `id` is `none` when the JSON object has no
`"id"` key, `variants` is `none` when it has no `"variants"` key. -/
structure Product where
  id : Option Int
  variants : Option (List Variant)
deriving DecidableEq, Repr

/-- One record of the target store's listing (`fields=id,variants`); its `id`
is always present there, and `p.get("variants", [])` makes a missing
`variants` key indistinguishable from `[]`. -/
structure CatalogProduct where
  id : Int
  variants : List Variant
deriving DecidableEq, Repr

/-- Body of the listing response: `response.json().get("products", [])`. -/
structure Listing where
  products : List CatalogProduct
deriving DecidableEq, Repr

/-- Result of one `requests` call: the transport either fails (raising
`requests.exceptions.RequestException`) or delivers a status code and body. -/
inductive Transport (α : Type) where
  | failure : Transport α
  | response (status : Nat) (body : α) : Transport α
deriving DecidableEq, Repr

/-- The outbound calls the pipeline can issue against the target store. -/
inductive OutboundCall where
  | listing
  | update (id : Int)
  | create
deriving DecidableEq, Repr

/-- Exceptions raised by `src/api/webhook.py` (the legacy variant raises only
the transport ones, as uncaught `requests` exceptions). -/
inductive PyError where
  | fetchTransport
  | fetchStatus (status : Nat)
  | dispatchTransport
  | dispatchStatus (status : Nat) (text : String)
deriving DecidableEq, Repr

/-- Oracle for one request's interaction with the outside world: the webhook
secret and the target system's responses to the listing call and to each
possible mutating call. -/
structure Env where
  secret : String
  listingResp : Transport Listing
  dispatchResp : OutboundCall → Transport String

instance {ε α : Type} [DecidableEq ε] [DecidableEq α] : DecidableEq (Except ε α) := fun
  | .error e, .error f => decidable_of_iff (e = f) (by simp)
  | .error _, .ok _ => isFalse (by simp)
  | .ok _, .error _ => isFalse (by simp)
  | .ok a, .ok b => decidable_of_iff (a = b) (by simp)

/-- What one run of `create_or_update_product` did: the outbound calls it
issued, in order, and whether it returned normally or raised. -/
structure RunResult where
  calls : List OutboundCall
  result : Except PyError Unit
deriving DecidableEq, Repr

/-- The inbound HTTP request as the handler reads it: raw body bytes, the
`X-Shopify-Hmac-Sha256` header if present, and the JSON parse of the body
(`none` when unparseable). -/
structure Request where
  rawBody : List Nat
  hmacHeader : Option String
  jsonBody : Option Product

/-- The handler's observable outcome: HTTP status, whether the JSON body said
`success`, and the outbound calls issued while serving the request. -/
structure HandlerResult where
  status : Nat
  success : Bool
  calls : List OutboundCall
deriving DecidableEq, Repr

/-! ## The shared SKU extraction and matching logic -/

/-- Embedding of `get_sku_from_product` (identical in both files):
`variants = product.get("variants", [])`, return `variants[0].get("sku")`
when the list is non-empty (Python list truthiness), else `None`.
Note it returns the raw `sku` value — the empty string comes back as
`some ""`, not as `none`. -/
def get_sku_from_product (product : Product) : Option String :=
  match product.variants.getD [] with
  | [] => none
  | v :: _ => v.sku

/-- One catalog record matches the key iff some variant's `sku` equals it:
the inner loop `if variant.get("sku") == sku`. -/
def productMatches (sku : String) (p : CatalogProduct) : Bool :=
  p.variants.any (fun v => v.sku == some sku)

/-- The scan of both `get_existing_product_id_by_sku` variants: walk the
listing in order, return the first record with a matching variant. -/
def findMatch : String → List CatalogProduct → Option Int
  | _, [] => none
  | sku, p :: rest => if productMatches sku p then some p.id else findMatch sku rest

/-! ## The api variant (`src/api/webhook.py`) -/

/-- Embedding of `get_existing_product_id_by_sku` from `src/api/webhook.py`:
transport failure and any status other than 200 raise; a 200 response is
scanned for the first SKU match, with no match a normal `None`. -/
def api_get_existing_product_id_by_sku (sku : String) (listing : Transport Listing) :
    Except PyError (Option Int) :=
  match listing with
  | .failure => .error .fetchTransport
  | .response status body =>
    if status == 200 then .ok (findMatch sku body.products)
    else .error (.fetchStatus status)

/-- Embedding of `create_or_update_product` from `src/api/webhook.py`.
Python truthiness drives both guards: `if not sku` skips on `None` or `""`;
`if existing_product_id` picks update only for a non-zero id. -/
def api_create_or_update_product (product : Product) (env : Env) : RunResult :=
  match get_sku_from_product product with
  | none => ⟨[], .ok ()⟩
  | some sku =>
    if sku == "" then ⟨[], .ok ()⟩
    else
      match api_get_existing_product_id_by_sku sku env.listingResp with
      | .error e => ⟨[.listing], .error e⟩
      | .ok existing_product_id =>
        let call : OutboundCall :=
          match existing_product_id with
          | some i => if i == 0 then .create else .update i
          | none => .create
        match env.dispatchResp call with
        | .failure => ⟨[.listing, call], .error .dispatchTransport⟩
        | .response st text =>
          if st == 200 || st == 201 then ⟨[.listing, call], .ok ()⟩
          else ⟨[.listing, call], .error (.dispatchStatus st text)⟩

/-- Embedding of `handle_webhook` from `src/api/webhook.py`: a missing
header — or a present-but-empty one, both falsy to Python's
`if not hmac_header` — gets 400, failed verification 401, unparseable body or
missing `id` 400, then process, mapping a raised exception to 500 and normal
return to 200. -/
def api_handle_webhook (env : Env) (req : Request) : HandlerResult :=
  match req.hmacHeader with
  | none => ⟨400, false, []⟩
  | some h =>
    if h == "" then ⟨400, false, []⟩
    else if verify_webhook env.secret req.rawBody h then
      match req.jsonBody with
      | none => ⟨400, false, []⟩
      | some p =>
        match p.id with
        | none => ⟨400, false, []⟩
        | some _ =>
          let r := api_create_or_update_product p env
          match r.result with
          | .ok _ => ⟨200, true, r.calls⟩
          | .error _ => ⟨500, false, r.calls⟩
    else ⟨401, false, []⟩

/-! ## The legacy variant (`src/webhook.py`) -/

/-- Embedding of `get_existing_product_id_by_sku` from `src/webhook.py`: the
`requests.get` call is not wrapped in try/except, so a transport failure
propagates (modelled as `.error`); a non-200 status only prints and falls
through to `return None` — a normal result that the caller cannot tell apart
from "no match". -/
def legacy_get_existing_product_id_by_sku (sku : String) (listing : Transport Listing) :
    Except PyError (Option Int) :=
  match listing with
  | .failure => .error .fetchTransport
  | .response status body =>
    if status == 200 then .ok (findMatch sku body.products)
    else .ok none

/-- Embedding of `create_or_update_product` from `src/webhook.py`: same
truthiness-driven skip and update/create choice as the api variant, but any
dispatch response — success or not — is only printed and the function returns
normally; only an uncaught transport exception escapes. -/
def legacy_create_or_update_product (product : Product) (env : Env) : RunResult :=
  match get_sku_from_product product with
  | none => ⟨[], .ok ()⟩
  | some sku =>
    if sku == "" then ⟨[], .ok ()⟩
    else
      match legacy_get_existing_product_id_by_sku sku env.listingResp with
      | .error e => ⟨[.listing], .error e⟩
      | .ok existing_product_id =>
        let call : OutboundCall :=
          match existing_product_id with
          | some i => if i == 0 then .create else .update i
          | none => .create
        match env.dispatchResp call with
        | .failure => ⟨[.listing, call], .error .dispatchTransport⟩
        | .response _ _ => ⟨[.listing, call], .ok ()⟩

/-- Embedding of `handle_webhook` from `src/webhook.py`: no signature check at
all; an unparseable body makes `request.json` raise `BadRequest` (HTTP 400);
a body without `id` is silently ignored; the handler answers 200 `success`
whenever processing does not raise, and an uncaught exception becomes a
Flask-level 500. -/
def legacy_handle_webhook (env : Env) (req : Request) : HandlerResult :=
  match req.jsonBody with
  | none => ⟨400, false, []⟩
  | some p =>
    match p.id with
    | none => ⟨200, true, []⟩
    | some _ =>
      let r := legacy_create_or_update_product p env
      match r.result with
      | .ok _ => ⟨200, true, r.calls⟩
      | .error _ => ⟨500, false, r.calls⟩

/-! ## Helper lemmas -/

theorem verify_compute (secret : String) (body : List Nat) :
    verify_webhook secret body (computeSignature secret body) = true := by
  simp [verify_webhook, computeSignature, compare_digest]

theorem findMatch_eq (sku : String) : ∀ ps : List CatalogProduct,
    findMatch sku ps = (ps.find? (fun p => productMatches sku p)).map (fun p => p.id)
  | [] => rfl
  | p :: rest => by
    by_cases h : productMatches sku p
    · simp [findMatch, h]
    · simp [findMatch, h, findMatch_eq sku rest]

/-! ## Claims -/

/-- Claim C3: for all secret and raw body bytes, verifying the body against
the signature computed as the base64-encoded HMAC-SHA256 digest of that body
under that secret returns true. -/
theorem c3_signature_roundtrip (secret : String) (body : List Nat) :
    verify_webhook secret body (computeSignature secret body) = true :=
  verify_compute secret body

/-- Claim C7: `get_sku_from_product` is pure and total (a total Lean
function): it returns `none` when `variants` is absent or empty, `none` when
the first variant has no `sku` field, and the first variant's `sku` string
regardless of how many variants follow. -/
theorem c7_extract_total (i : Option Int) (s : String) (rest : List Variant) :
    get_sku_from_product ⟨i, none⟩ = none ∧
    get_sku_from_product ⟨i, some []⟩ = none ∧
    get_sku_from_product ⟨i, some (⟨none⟩ :: rest)⟩ = none ∧
    get_sku_from_product ⟨i, some (⟨some s⟩ :: rest)⟩ = some s :=
  ⟨rfl, rfl, rfl, rfl⟩

/-- Claim C8: on a 200 listing response, both resolver variants return — as a
normal `.ok`, not an error — the id of the first record (in listing order)
having any variant whose `sku` exactly matches the key, and `none` inside
`.ok` when no record matches (`List.find?` is `none` exactly then). -/
theorem c8_resolver_first_match (sku : String) (ps : List CatalogProduct) :
    api_get_existing_product_id_by_sku sku (.response 200 ⟨ps⟩) =
      .ok ((ps.find? (fun p => productMatches sku p)).map (fun p => p.id)) ∧
    legacy_get_existing_product_id_by_sku sku (.response 200 ⟨ps⟩) =
      .ok ((ps.find? (fun p => productMatches sku p)).map (fun p => p.id)) := by
  refine ⟨?_, ?_⟩ <;>
    simp [api_get_existing_product_id_by_sku, legacy_get_existing_product_id_by_sku,
      findMatch_eq]

/-! ## Concrete inputs used by counterexamples and witnesses -/

def prodABC : Product := ⟨some 1, some [⟨some "ABC"⟩]⟩

def prodNoId : Product := ⟨none, some [⟨some "ABC"⟩]⟩

def prodEmptySku : Product := ⟨some 7, some [⟨some ""⟩]⟩

def env503 : Env := ⟨"secret", .response 503 ⟨[]⟩, fun _ => .response 201 "created"⟩

def envOkEmpty : Env := ⟨"secret", .response 200 ⟨[]⟩, fun _ => .response 201 "created"⟩

def envBadDispatch : Env := ⟨"secret", .response 200 ⟨[]⟩, fun _ => .response 500 "oops"⟩

def catZero : Listing := ⟨[⟨0, [⟨some "ABC"⟩]⟩]⟩

def cat99 : Listing := ⟨[⟨99, [⟨some "ABC"⟩]⟩]⟩

def envCatZero : Env := ⟨"secret", .response 200 catZero, fun _ => .response 200 "updated"⟩

def envCat99 : Env := ⟨"secret", .response 200 cat99, fun _ => .response 200 "updated"⟩

/-! ## Reduction lemmas for the dispatch stage -/

theorem sku_beq_empty_false {sku : String} (hne : sku ≠ "") : (sku == "") = false := by
  simp [hne]

theorem sha256round_ne_nil (st : List Nat) (kw : Nat) (h : st ≠ []) :
    sha256round st kw ≠ [] := by
  unfold sha256round
  split
  · simp
  · exact h

theorem foldl_sha256round_ne_nil (kf : Nat → Nat) :
    ∀ (l : List Nat) (st : List Nat), st ≠ [] →
      l.foldl (fun s j => sha256round s (kf j)) st ≠ []
  | [], _, h => h
  | a :: as, st, h =>
    foldl_sha256round_ne_nil kf as _ (sha256round_ne_nil st (kf a) h)

theorem zipWith_mod_ne_nil (f : Nat → Nat → Nat) (l1 l2 : List Nat)
    (h1 : l1 ≠ []) (h2 : l2 ≠ []) : List.zipWith f l1 l2 ≠ [] := by
  obtain ⟨x, xs, rfl⟩ := List.exists_cons_of_ne_nil h1
  obtain ⟨y, ys, rfl⟩ := List.exists_cons_of_ne_nil h2
  simp

theorem compress_ne_nil (hs b : List Nat) (hh : hs ≠ []) : compress hs b ≠ [] :=
  zipWith_mod_ne_nil _ hs _ hh
    (foldl_sha256round_ne_nil _ (List.range 64) hs hh)

theorem sha256core_ne_nil : ∀ (n : Nat) (hs bytes : List Nat), hs ≠ [] →
    sha256core n hs bytes ≠ []
  | 0, _, _, hh => hh
  | n + 1, hs, bytes, hh =>
    sha256core_ne_nil n _ _ (compress_ne_nil hs (bytes.take 64) hh)

theorem sha256_ne_nil (msg : List Nat) : sha256 msg ≠ [] := by
  have hcore : sha256core ((sha256pad msg).length / 64) sha256H0 (sha256pad msg) ≠ [] :=
    sha256core_ne_nil _ _ _ (by simp [sha256H0])
  obtain ⟨x, xs, hx⟩ := List.exists_cons_of_ne_nil hcore
  show joinAll ((sha256core ((sha256pad msg).length / 64) sha256H0
    (sha256pad msg)).map (toBytesBE 4)) ≠ []
  rw [hx]
  simp [joinAll, toBytesBE]

theorem hmacSha256_ne_nil (key msg : List Nat) : hmacSha256 key msg ≠ [] :=
  sha256_ne_nil _

theorem b64encodeAux_ne_nil : ∀ bs : List Nat, bs ≠ [] → b64encodeAux bs ≠ []
  | _ :: _ :: _ :: _, _ => by simp [b64encodeAux]
  | [_, _], _ => by simp [b64encodeAux]
  | [_], _ => by simp [b64encodeAux]
  | [], h => absurd rfl h

theorem base64encode_ne_empty (bs : List Nat) (h : bs ≠ []) : base64encode bs ≠ "" := by
  intro he
  have hdata : b64encodeAux bs = [] := congrArg String.data he
  exact b64encodeAux_ne_nil bs h hdata

theorem computeSignature_ne_empty (secret : String) (body : List Nat) :
    computeSignature secret body ≠ "" :=
  base64encode_ne_empty _ (hmacSha256_ne_nil _ _)

theorem verify_empty_header_false (secret : String) (data : List Nat) :
    verify_webhook secret data "" = false :=
  sku_beq_empty_false (computeSignature_ne_empty secret data)

theorem api_run_eq (p : Product) (env : Env) (sku : String) (ps : List CatalogProduct)
    (hsku : get_sku_from_product p = some sku) (hne : sku ≠ "")
    (hl : env.listingResp = Transport.response 200 ⟨ps⟩) :
    api_create_or_update_product p env =
      (let call : OutboundCall :=
        match findMatch sku ps with
        | some i => if i == 0 then .create else .update i
        | none => .create
      match env.dispatchResp call with
      | .failure => ⟨[.listing, call], .error .dispatchTransport⟩
      | .response st text =>
        if st == 200 || st == 201 then ⟨[.listing, call], .ok ()⟩
        else ⟨[.listing, call], .error (.dispatchStatus st text)⟩) := by
  simp only [api_create_or_update_product, hsku, sku_beq_empty_false hne,
    api_get_existing_product_id_by_sku, hl, Bool.false_eq_true, if_false]
  simp

theorem legacy_run_eq (p : Product) (env : Env) (sku : String) (ps : List CatalogProduct)
    (hsku : get_sku_from_product p = some sku) (hne : sku ≠ "")
    (hl : env.listingResp = Transport.response 200 ⟨ps⟩) :
    legacy_create_or_update_product p env =
      (let call : OutboundCall :=
        match findMatch sku ps with
        | some i => if i == 0 then .create else .update i
        | none => .create
      match env.dispatchResp call with
      | .failure => ⟨[.listing, call], .error .dispatchTransport⟩
      | .response _ _ => ⟨[.listing, call], .ok ()⟩) := by
  simp only [legacy_create_or_update_product, hsku, sku_beq_empty_false hne,
    legacy_get_existing_product_id_by_sku, hl, Bool.false_eq_true, if_false]
  simp

/-- Claim C1, counterexample (legacy variant, `src/webhook.py`): when the
listing request answers 503, `get_existing_product_id_by_sku` returns a
normal `None` — not an error — and the pipeline then issues a create call
and finishes as if nothing went wrong. -/
theorem c1_counterexample :
    env503.listingResp = .response 503 ⟨[]⟩ ∧
    legacy_get_existing_product_id_by_sku "ABC" (.response 503 ⟨[]⟩) = .ok none ∧
    legacy_create_or_update_product prodABC env503 = ⟨[.listing, .create], .ok ()⟩ :=
  ⟨rfl, rfl, rfl⟩

/-- Claim C1, amended: in the api variant (`src/api/webhook.py`) a listing
transport failure or non-200 status makes the resolver raise, aborting the
upsert — the only outbound call is the listing itself, and the run ends in a
fetch error; the legacy variant (`src/webhook.py`) instead returns `None`
after a non-2xx listing and falls through to a create call. -/
theorem c1_api_fetch_error_aborts (p : Product) (env : Env) (sku : String)
    (hsku : get_sku_from_product p = some sku) (hne : sku ≠ "")
    (hfail : env.listingResp = .failure ∨
      ∃ st b, env.listingResp = Transport.response st b ∧ st ≠ 200) :
    (api_create_or_update_product p env).calls = [.listing] ∧
    ∃ e, (api_create_or_update_product p env).result = .error e ∧
      (e = .fetchTransport ∨ ∃ st, e = .fetchStatus st) := by
  have hres : ∃ e, api_get_existing_product_id_by_sku sku env.listingResp = .error e ∧
      (e = PyError.fetchTransport ∨ ∃ st, e = PyError.fetchStatus st) := by
    rcases hfail with h | ⟨st, b, h, hst⟩
    · exact ⟨.fetchTransport, by rw [h]; rfl, .inl rfl⟩
    · refine ⟨.fetchStatus st, ?_, .inr ⟨st, rfl⟩⟩
      rw [h]
      simp [api_get_existing_product_id_by_sku, hst]
  obtain ⟨e, he, hshape⟩ := hres
  have hrun : api_create_or_update_product p env = ⟨[.listing], .error e⟩ := by
    simp only [api_create_or_update_product, hsku, sku_beq_empty_false hne,
      Bool.false_eq_true, if_false, he]
  exact ⟨by rw [hrun], e, by rw [hrun], hshape⟩

/-- Witness for the amended claim C1 at a concrete 503 listing response. -/
theorem c1_api_fetch_error_aborts_witness :
    (api_create_or_update_product prodABC env503).calls = [.listing] ∧
    ∃ e, (api_create_or_update_product prodABC env503).result = .error e ∧
      (e = .fetchTransport ∨ ∃ st, e = .fetchStatus st) :=
  c1_api_fetch_error_aborts prodABC env503 "ABC" rfl (by decide)
    (Or.inr ⟨503, ⟨[]⟩, rfl, by decide⟩)

/-- Claim C2, counterexample (legacy variant, `src/webhook.py`): a request
with no signature header at all is fully processed — the handler checks no
signature, issues the listing and create calls, and answers 200 success. -/
theorem c2_counterexample :
    legacy_handle_webhook envOkEmpty ⟨[], none, some prodABC⟩ =
      ⟨200, true, [.listing, .create]⟩ :=
  rfl

/-- Claim C2, amended: in the api variant (`src/api/webhook.py`) an absent
signature header — or a present-but-empty one, both falsy to Python's
`if not hmac_header` — gets 400, a non-empty header that fails verification
gets 401, and in every case zero outbound calls are issued; the legacy
variant (`src/webhook.py`) performs no signature verification and processes
unsigned requests. -/
theorem c2_api_rejects_unsigned (env : Env) (b : List Nat) (j : Option Product)
    (h : String) (hne : h ≠ "") (hv : verify_webhook env.secret b h = false) :
    api_handle_webhook env ⟨b, none, j⟩ = ⟨400, false, []⟩ ∧
    api_handle_webhook env ⟨b, some "", j⟩ = ⟨400, false, []⟩ ∧
    api_handle_webhook env ⟨b, some h, j⟩ = ⟨401, false, []⟩ := by
  refine ⟨rfl, rfl, ?_⟩
  simp [api_handle_webhook, sku_beq_empty_false hne, hv]

set_option maxRecDepth 400000 in
/-- Witness for the amended claim C2 at a concrete wrong signature. -/
theorem c2_api_rejects_unsigned_witness :
    api_handle_webhook envOkEmpty ⟨[1, 2, 3], none, some prodABC⟩ = ⟨400, false, []⟩ ∧
    api_handle_webhook envOkEmpty ⟨[1, 2, 3], some "", some prodABC⟩ = ⟨400, false, []⟩ ∧
    api_handle_webhook envOkEmpty ⟨[1, 2, 3], some "x", some prodABC⟩ = ⟨401, false, []⟩ :=
  c2_api_rejects_unsigned envOkEmpty [1, 2, 3] (some prodABC) "x" (by decide) (by decide)

/-- Claim C4, counterexample (legacy variant, `src/webhook.py`): a dispatch
answered 500 by the target store is only printed — `create_or_update_product`
returns normally and the handler answers 200 success, so the error never
reaches the caller. -/
theorem c4_counterexample :
    envBadDispatch.dispatchResp .create = .response 500 "oops" ∧
    (legacy_create_or_update_product prodABC envBadDispatch).result = .ok () ∧
    legacy_handle_webhook envBadDispatch ⟨[], none, some prodABC⟩ =
      ⟨200, true, [.listing, .create]⟩ :=
  ⟨rfl, rfl, rfl⟩

/-- Claim C4, amended: in the api variant (`src/api/webhook.py`) the dispatch
outcome is success exactly for status 200 or 201; any other status raises an
exception carrying the status and response text, a transport failure raises
as well, and the handler surfaces any such exception as HTTP 500; the legacy
variant (`src/webhook.py`) only logs a bad dispatch status and answers 200. -/
theorem c4_api_dispatch_errors_surface (p : Product) (env : Env) (sku : String)
    (ps : List CatalogProduct) (dr : Transport String) (b : List Nat)
    (hsig : String) (n : Int)
    (hsku : get_sku_from_product p = some sku) (hne : sku ≠ "")
    (hl : env.listingResp = Transport.response 200 ⟨ps⟩)
    (hd : ∀ c, env.dispatchResp c = dr)
    (hv : verify_webhook env.secret b hsig = true)
    (hid : p.id = some n) :
    (api_create_or_update_product p env).result =
      (match dr with
       | .failure => Except.error PyError.dispatchTransport
       | .response st text =>
         if st == 200 || st == 201 then Except.ok ()
         else Except.error (.dispatchStatus st text)) ∧
    (api_handle_webhook env ⟨b, some hsig, some p⟩).status =
      (match (api_create_or_update_product p env).result with
       | .ok _ => 200
       | .error _ => 500) := by
  constructor
  · rw [api_run_eq p env sku ps hsku hne hl]
    simp only [hd]
    cases dr with
    | failure => rfl
    | response st text =>
      by_cases hc : (st == 200 || st == 201) = true
      · simp [hc]
      · simp [hc]
  · have hsne : hsig ≠ "" := by
      intro he
      rw [he, verify_empty_header_false] at hv
      exact Bool.noConfusion hv
    simp only [api_handle_webhook, sku_beq_empty_false hsne, Bool.false_eq_true, if_false,
      hv, if_true, hid]
    cases hres : (api_create_or_update_product p env).result with
    | ok u => simp [hres]
    | error e => simp [hres]

/-- Witness for the amended claim C4 at a concrete 500 dispatch response. -/
theorem c4_api_dispatch_errors_surface_witness :
    (api_create_or_update_product prodABC envBadDispatch).result =
      .error (.dispatchStatus 500 "oops") ∧
    (api_handle_webhook envBadDispatch
      ⟨[1, 2, 3], some (computeSignature "secret" [1, 2, 3]), some prodABC⟩).status = 500 := by
  have h := c4_api_dispatch_errors_surface prodABC envBadDispatch "ABC" []
    (.response 500 "oops") [1, 2, 3] (computeSignature "secret" [1, 2, 3]) 1
    rfl (by decide) rfl (fun _ => rfl) (verify_compute "secret" [1, 2, 3]) rfl
  obtain ⟨h1, h2⟩ := h
  refine ⟨by simpa using h1, ?_⟩
  rw [h1] at h2
  simpa using h2

/-- Claim C5, counterexample (legacy variant, `src/webhook.py`): a valid JSON
body without an `id` field is silently ignored and the handler answers 200
success, not 400 with a failure body. -/
theorem c5_counterexample :
    prodNoId.id = none ∧
    legacy_handle_webhook envOkEmpty ⟨[], none, some prodNoId⟩ = ⟨200, true, []⟩ :=
  ⟨rfl, rfl⟩

/-- Claim C5, amended: in the api variant (`src/api/webhook.py`) a correctly
signed request whose body is unparseable, or parses to a record without an
`id` field, is answered 400 with a failure body and no outbound calls; the
legacy variant (`src/webhook.py`) answers 200 success for a body without
`id`. -/
theorem c5_api_rejects_invalid_payload (env : Env) (b : List Nat)
    (vs : Option (List Variant)) :
    api_handle_webhook env ⟨b, some (computeSignature env.secret b), none⟩ =
      ⟨400, false, []⟩ ∧
    api_handle_webhook env ⟨b, some (computeSignature env.secret b), some ⟨none, vs⟩⟩ =
      ⟨400, false, []⟩ := by
  have hv := verify_compute env.secret b
  have hne := sku_beq_empty_false (computeSignature_ne_empty env.secret b)
  refine ⟨?_, ?_⟩ <;> simp [api_handle_webhook, hne, hv]

/-- Claim C6, counterexample: for a product whose first variant's `sku` is the
empty string, `get_sku_from_product` returns `some ""` — the empty string
itself — not absent. -/
theorem c6_counterexample :
    get_sku_from_product prodEmptySku = some "" ∧
    get_sku_from_product prodEmptySku ≠ none :=
  ⟨rfl, by decide⟩

/-- Claim C6, amended: `get_sku_from_product` returns the empty string as-is
(`some ""`) when the first variant's `sku` is empty; the normalization lives
in the caller, whose Python truthiness check `if not sku` then treats it
identically to a missing key, so both pipeline variants skip the product with
no outbound calls. -/
theorem c6_empty_sku_treated_as_missing (i : Option Int) (vs : List Variant) (env : Env) :
    get_sku_from_product ⟨i, some (⟨some ""⟩ :: vs)⟩ = some "" ∧
    api_create_or_update_product ⟨i, some (⟨some ""⟩ :: vs)⟩ env = ⟨[], .ok ()⟩ ∧
    legacy_create_or_update_product ⟨i, some (⟨some ""⟩ :: vs)⟩ env = ⟨[], .ok ()⟩ :=
  ⟨rfl, rfl, rfl⟩

/-- Claim C9, counterexample: with the first submission's create reflected in
the catalog as a record whose id is 0 and no other change, resubmitting the
same payload issues a second create call — the update branch is chosen by
Python truthiness of the id, and 0 is falsy. -/
theorem c9_counterexample :
    productMatches "ABC" ⟨0, [⟨some "ABC"⟩]⟩ = true ∧
    (api_create_or_update_product prodABC envCatZero).calls = [.listing, .create] :=
  ⟨rfl, rfl⟩

/-- Claim C9, amended: in both variants, resubmitting the same payload with
the first submission's create reflected in the catalog yields an update call
to the matched record — never a second create — provided the matched record's
id is truthy (non-zero); a catalog record with id 0 still triggers a second
create. -/
theorem c9_idempotent_for_nonzero_id (p : Product) (env : Env) (sku : String)
    (ps : List CatalogProduct) (r : CatalogProduct)
    (hsku : get_sku_from_product p = some sku) (hne : sku ≠ "")
    (hl : env.listingResp = Transport.response 200 ⟨ps⟩)
    (hfind : ps.find? (fun q => productMatches sku q) = some r)
    (hid : r.id ≠ 0) :
    (api_create_or_update_product p env).calls = [.listing, .update r.id] ∧
    (legacy_create_or_update_product p env).calls = [.listing, .update r.id] := by
  have hm : findMatch sku ps = some r.id := by
    rw [findMatch_eq, hfind]
    rfl
  have hid' : (r.id == 0) = false := by simp [hid]
  constructor
  · rw [api_run_eq p env sku ps hsku hne hl]
    simp only [hm, hid', Bool.false_eq_true, if_false]
    cases env.dispatchResp (.update r.id) with
    | failure => rfl
    | response st text =>
      by_cases hc : (st == 200 || st == 201) = true <;> simp [hc]
  · rw [legacy_run_eq p env sku ps hsku hne hl]
    simp only [hm, hid', Bool.false_eq_true, if_false]
    cases env.dispatchResp (.update r.id) with
    | failure => rfl
    | response st text => rfl

/-- Witness for the amended claim C9: catalog holds the previously created
record with id 99 and matching SKU, so the second submission updates id 99 in
both variants. -/
theorem c9_idempotent_for_nonzero_id_witness :
    (api_create_or_update_product prodABC envCat99).calls = [.listing, .update 99] ∧
    (legacy_create_or_update_product prodABC envCat99).calls = [.listing, .update 99] :=
  c9_idempotent_for_nonzero_id prodABC envCat99 "ABC" cat99.products
    ⟨99, [⟨some "ABC"⟩]⟩ rfl (by decide) rfl rfl (by decide)

/-- Claim C10: the update/create choice is Python truthiness of the resolved
id, not a presence check — when the first matching catalog record's id is the
falsy integer 0, both variants issue a create call to the collection endpoint
instead of an update to that id, even though a matching record exists. -/
theorem c10_falsy_id_creates (p : Product) (env : Env) (sku : String)
    (ps : List CatalogProduct) (r : CatalogProduct)
    (hsku : get_sku_from_product p = some sku) (hne : sku ≠ "")
    (hl : env.listingResp = Transport.response 200 ⟨ps⟩)
    (hfind : ps.find? (fun q => productMatches sku q) = some r)
    (hid : r.id = 0) :
    (api_create_or_update_product p env).calls = [.listing, .create] ∧
    (legacy_create_or_update_product p env).calls = [.listing, .create] := by
  have hm : findMatch sku ps = some 0 := by
    simp [findMatch_eq, hfind, hid]
  constructor
  · rw [api_run_eq p env sku ps hsku hne hl]
    simp only [hm, beq_self_eq_true, eq_self_iff_true, if_true]
    cases env.dispatchResp .create with
    | failure => rfl
    | response st text =>
      by_cases hc : (st == 200 || st == 201) = true <;> simp [hc]
  · rw [legacy_run_eq p env sku ps hsku hne hl]
    simp only [hm, beq_self_eq_true, eq_self_iff_true, if_true]
    cases env.dispatchResp .create with
    | failure => rfl
    | response st text => rfl

/-- Witness for claim C10: the catalog's matching record has id 0, and both
variants issue a create call. -/
theorem c10_falsy_id_creates_witness :
    (api_create_or_update_product prodABC envCatZero).calls = [.listing, .create] ∧
    (legacy_create_or_update_product prodABC envCatZero).calls = [.listing, .create] :=
  c10_falsy_id_creates prodABC envCatZero "ABC" catZero.products
    ⟨0, [⟨some "ABC"⟩]⟩ rfl (by decide) rfl rfl rfl
